import Mathlib

/-!
Shallow embedding of the PMO backend (src/backend/server.py): the role /
visibility checks, the project status workflow, the sub-document handlers
and the risk scorer, together with theorems settling the frozen claims.

Modelling conventions:
* MongoDB collections are lists of documents; `find_one` is `List.find?`,
  `update_one` with a `$set` patch is `List.map` guarded by the filter,
  `delete_one` is `List.eraseP`, and the `modified_count` of an update is
  whether any document matched the filter (every `$set` in the handlers
  below writes a fresh `updated_at`, so a matched document is always
  modified).
* A handler returns `Except Err r` with `Err` the pair of the HTTP status
  code and the detail string of the raised `HTTPException`; `.ok` is the
  handler's successful return.
* Timestamp fields (`created_at`, `updated_at`) and free-text payload
  fields carry no claim content and are omitted from the document
  structures.
-/

deriving instance DecidableEq for Except

namespace PMO

/-- The `UserRole` enum (server.py lines 41-45). -/
inductive UserRole where
  | project_manager
  | team_member
  | stakeholder
  | executive
deriving DecidableEq, Repr

/-- The authenticated caller (`current_user`), as far as the handlers
consult it: its `id` and `role`. -/
structure User where
  id : String
  role : UserRole
deriving DecidableEq, Repr

/-- A document of the `projects` collection. `mId` stands for the Mongo
`_id` key (`update_project_status` looks projects up by `_id`, the other
project handlers by the application-level `id`). `status` is optional
because `update_project_status` reads it with
`project_doc.get("status", "initiation")`. -/
structure ProjectDoc where
  mId : String
  id : String
  status : Option String
  project_manager_id : String
  created_by : String
  stakeholders : List String
deriving DecidableEq, Repr

/-- The datastore as the handlers in the claims see it: the `projects`
collection. -/
structure Db where
  projects : List ProjectDoc
deriving DecidableEq, Repr

/-- `db.projects.find_one({"_id": pid})`. -/
def Db.find_one_by_mId (db : Db) (pid : String) : Option ProjectDoc :=
  db.projects.find? (fun p => p.mId == pid)

/-- `db.projects.find_one({"id": pid})`. -/
def Db.find_one_by_id (db : Db) (pid : String) : Option ProjectDoc :=
  db.projects.find? (fun p => p.id == pid)

/-- HTTP status code and detail string of a raised `HTTPException`. -/
abbrev Err := Nat × String

/-- `true` on a handler's successful return. -/
def isSuccess {ε α : Type} : Except ε α → Bool
  | Except.ok _ => true
  | Except.error _ => false

/-- The seven values of the `ProjectStatus` enum (server.py lines 47-54). -/
def projectStatuses : List String :=
  ["initiation", "planning", "execution", "monitoring", "closure",
   "completed", "cancelled"]

/-- Python `dict.get(key, default)` over an association list. -/
def dictGet {α : Type} (table : List (String × α)) (key : String)
    (default : α) : α :=
  match table.find? (fun kv => kv.1 == key) with
  | some kv => kv.2
  | none => default

/-- The `valid_transitions` dict of `update_project_status`
(server.py lines 2047-2055). -/
def valid_transitions : List (String × List String) :=
  [("initiation", ["planning", "cancelled"]),
   ("planning", ["execution", "initiation", "cancelled"]),
   ("execution", ["monitoring", "planning", "cancelled"]),
   ("monitoring", ["closure", "execution", "cancelled"]),
   ("closure", ["completed", "monitoring", "cancelled"]),
   ("completed", []),
   ("cancelled", ["initiation"])]

/-- `valid_transitions.get(current_status, [])`. -/
def allowedNext (current_status : String) : List String :=
  dictGet valid_transitions current_status []

/-- `update_project_status` (server.py lines 2034-2090) with the datastore
state made explicit at each `await` boundary: `db_find` is the state the
`find_one` reads (the snapshot the legality check is computed against) and
`db_write` the state the `update_one` is applied to. The sequential
handler is `update_project_status` below, with both states equal. Returns
the datastore after the write together with the reported `new_status`. -/
def update_project_status_at (db_find db_write : Db) (project_id : String)
    (status_data : Option String) : Except Err (Db × String) :=
  match status_data with
  | none => Except.error (400, "Status is required")
  | some new_status =>
    if new_status = "" then Except.error (400, "Status is required")
    else
      match db_find.find_one_by_mId project_id with
      | none => Except.error (404, "Project not found")
      | some project_doc =>
        let current_status := project_doc.status.getD "initiation"
        if new_status ∈ allowedNext current_status then
          let modified := db_write.projects.any (fun p => p.mId == project_id)
          let db2 : Db :=
            ⟨db_write.projects.map (fun p =>
              if p.mId == project_id then { p with status := some new_status }
              else p)⟩
          if modified then Except.ok (db2, new_status)
          else Except.error (404, "Project not found or not updated")
        else
          Except.error (400,
            "Invalid status transition from " ++ current_status ++ " to " ++
            new_status ++ ". Allowed: " ++
            String.intercalate ", " (allowedNext current_status))

/-- The sequential `update_project_status` handler: one request running
alone, so the find and the write see the same datastore state. -/
def update_project_status (db : Db) (project_id : String)
    (status_data : Option String) : Except Err (Db × String) :=
  update_project_status_at db db project_id status_data

/-- If `find?` found a witness, `any` holds on the list. -/
theorem any_of_find?_some {α : Type} {p : α → Bool} {l : List α} {a : α}
    (h : l.find? p = some a) : l.any p = true :=
  List.any_eq_true.mpr ⟨a, List.mem_of_find?_eq_some h, List.find?_some h⟩

/-- Success of the sequential status update is exactly legality of the
requested transition from the stored current status. -/
theorem update_status_isSuccess (db : Db) (pid : String) (doc : ProjectDoc)
    (t : String) (hfind : db.find_one_by_mId pid = some doc) (htne : t ≠ "") :
    isSuccess (update_project_status db pid (some t)) =
      decide (t ∈ allowedNext (doc.status.getD "initiation")) := by
  have hany : db.projects.any (fun p => p.mId == pid) = true :=
    any_of_find?_some (by simpa [Db.find_one_by_mId] using hfind)
  unfold update_project_status update_project_status_at
  rw [hfind]
  by_cases hmem : t ∈ allowedNext (doc.status.getD "initiation") <;>
    simp [htne, hmem, hany, isSuccess]

/-- `get_project` (server.py lines 2092-2100): looks the project up and
returns it; `current_user` is received but never consulted. -/
def get_project (db : Db) (project_id : String) (current_user : User) :
    Except Err ProjectDoc :=
  match db.find_one_by_id project_id with
  | none => Except.error (404, "Project not found")
  | some project => Except.ok project

/-- The per-document predicate of the `base_query` that `get_projects`
builds (server.py lines 1956-1967): everything for the
`project_manager` / `executive` roles, else involvement as manager,
stakeholder or creator. -/
def project_matches_base_query (current_user : User) (p : ProjectDoc) : Bool :=
  if current_user.role = UserRole.project_manager ∨
     current_user.role = UserRole.executive then
    true
  else
    p.project_manager_id == current_user.id ||
    decide (current_user.id ∈ p.stakeholders) ||
    p.created_by == current_user.id

/-- `get_projects` (server.py lines 1948-1983): the base query plus the
optional `status` equality filter (lines 1970-1971). -/
def get_projects (db : Db) (status : Option String) (current_user : User) :
    List ProjectDoc :=
  db.projects.filter (fun p =>
    project_matches_base_query current_user p &&
    match status with
    | none => true
    | some s => p.status == some s)

/-- `update_project` (server.py lines 2102-2129): 404 when the project is
missing, 403 on the permission check of lines 2113-2116; the `$set` patch
of the payload fields carries no claim content and is elided, the found
project is returned on success. -/
def update_project (db : Db) (project_id : String) (current_user : User) :
    Except Err ProjectDoc :=
  match db.find_one_by_id project_id with
  | none => Except.error (404, "Project not found")
  | some project =>
    if current_user.role ∉ [UserRole.project_manager, UserRole.executive] ∧
       project.project_manager_id ≠ current_user.id then
      Except.error (403, "Not enough permissions")
    else
      Except.ok project

/-- `delete_project` (server.py lines 2131-2144): same permission check as
`update_project` (lines 2138-2141), then `delete_one({"id": project_id})`. -/
def delete_project (db : Db) (project_id : String) (current_user : User) :
    Except Err Db :=
  match db.find_one_by_id project_id with
  | none => Except.error (404, "Project not found")
  | some project =>
    if current_user.role ∉ [UserRole.project_manager, UserRole.executive] ∧
       project.project_manager_id ≠ current_user.id then
      Except.error (403, "Not enough permissions")
    else
      Except.ok ⟨db.projects.eraseP (fun p => p.id == project_id)⟩

/-- A project-scoped sub-document (charter, business case, stakeholder
entry, feasibility study) reduced to the fields the claims consult. -/
structure SubDoc where
  id : String
  project_id : String
  created_by : String
deriving DecidableEq, Repr

/-- The request body of a sub-document create/update, reduced to the
`project_id` foreign key. -/
structure SubDocInput where
  project_id : String
deriving DecidableEq, Repr

/-- `create_project_charter` (server.py lines 2183-2206): role gate first
(lines 2188-2190), then parent-project existence (lines 2192-2195), then
the insert. -/
def create_project_charter (db : Db) (project_charters : List SubDoc)
    (charter_data : SubDocInput) (current_user : User) (new_id : String) :
    Except Err (List SubDoc × SubDoc) :=
  if current_user.role ∉ [UserRole.project_manager, UserRole.executive] then
    Except.error (403, "Not enough permissions")
  else
    match db.find_one_by_id charter_data.project_id with
    | none => Except.error (404, "Project not found")
    | some _ =>
      let doc : SubDoc := ⟨new_id, charter_data.project_id, current_user.id⟩
      Except.ok (project_charters ++ [doc], doc)

/-- `update_project_charter` (server.py lines 2218-2244): charter lookup
first (404), then the role gate (lines 2230-2231), then the `$set`. -/
def update_project_charter (project_charters : List SubDoc)
    (charter_id : String) (charter_update : SubDocInput)
    (current_user : User) : Except Err (List SubDoc) :=
  match project_charters.find? (fun c => c.id == charter_id) with
  | none => Except.error (404, "Project charter not found")
  | some _ =>
    if current_user.role ∉ [UserRole.project_manager, UserRole.executive] then
      Except.error (403, "Not enough permissions")
    else
      Except.ok (project_charters.map (fun c =>
        if c.id == charter_id then
          { c with project_id := charter_update.project_id }
        else c))

/-- `create_business_case` (server.py lines 2247-2270): role gate first
(lines 2252-2254), then parent-project existence, then the insert. -/
def create_business_case (db : Db) (business_cases : List SubDoc)
    (case_data : SubDocInput) (current_user : User) (new_id : String) :
    Except Err (List SubDoc × SubDoc) :=
  if current_user.role ∉ [UserRole.project_manager, UserRole.executive] then
    Except.error (403, "Not enough permissions")
  else
    match db.find_one_by_id case_data.project_id with
    | none => Except.error (404, "Project not found")
    | some _ =>
      let doc : SubDoc := ⟨new_id, case_data.project_id, current_user.id⟩
      Except.ok (business_cases ++ [doc], doc)

/-- A document of the `templates` collection, reduced to the fields the
claims consult. -/
structure TemplateDoc where
  id : String
  created_by : String
  usage_count : Nat
deriving DecidableEq, Repr

/-- `create_template` (server.py lines 2436-2456): role gate
(lines 2442-2444), then the insert with `usage_count = 0`; templates have
no parent project. -/
def create_template (templates : List TemplateDoc) (current_user : User)
    (new_id : String) : Except Err (List TemplateDoc × TemplateDoc) :=
  if current_user.role ∉ [UserRole.project_manager, UserRole.executive] then
    Except.error (403, "Not enough permissions")
  else
    let doc : TemplateDoc := ⟨new_id, current_user.id, 0⟩
    Except.ok (templates ++ [doc], doc)

/-- `create_feasibility_study` (server.py lines 3473-3497): role gate first
(lines 3479-3481), then parent-project existence, then the insert. -/
def create_feasibility_study (db : Db) (feasibility_studies : List SubDoc)
    (study_data : SubDocInput) (current_user : User) (new_id : String) :
    Except Err (List SubDoc × SubDoc) :=
  if current_user.role ∉ [UserRole.project_manager, UserRole.executive] then
    Except.error (403, "Not enough permissions")
  else
    match db.find_one_by_id study_data.project_id with
    | none => Except.error (404, "Project not found")
    | some _ =>
      let doc : SubDoc := ⟨new_id, study_data.project_id, current_user.id⟩
      Except.ok (feasibility_studies ++ [doc], doc)

/-- `update_feasibility_study` (server.py lines 3510-3537): study lookup
first (404), then the role gate (lines 3522-3524), then the `$set`. -/
def update_feasibility_study (feasibility_studies : List SubDoc)
    (study_id : String) (study_update : SubDocInput) (current_user : User) :
    Except Err (List SubDoc) :=
  match feasibility_studies.find? (fun s => s.id == study_id) with
  | none => Except.error (404, "Feasibility study not found")
  | some _ =>
    if current_user.role ∉ [UserRole.project_manager, UserRole.executive] then
      Except.error (403, "Not enough permissions")
    else
      Except.ok (feasibility_studies.map (fun s =>
        if s.id == study_id then
          { s with project_id := study_update.project_id }
        else s))

/-- The `probability_score` dict (server.py line 2915 / 2959 / 2826). -/
def probability_score : List (String × Nat) :=
  [("very_low", 1), ("low", 2), ("medium", 3), ("high", 4), ("very_high", 5)]

/-- The `impact_score` dict (server.py line 2916 / 2960 / 2827). -/
def impact_score : List (String × Nat) :=
  [("very_low", 1), ("low", 2), ("medium", 3), ("high", 4), ("very_high", 5)]

/-- The five ordinal names of the `RiskProbability` / `RiskImpact` enums
(server.py lines 247-259). -/
def riskOrdinals : List String :=
  ["very_low", "low", "medium", "high", "very_high"]

/-- The request body of a risk create/update as the handlers read it.
`RiskBase` (server.py lines 268-281) declares no `risk_score` field, so a
`risk_score` value in the request JSON is dropped by the model parse and
never read by any handler; it is carried here as
`risk_score_in_request` to state that fact. -/
structure RiskInput where
  project_id : String
  probability : String
  impact : String
  risk_score_in_request : Option Nat
deriving DecidableEq, Repr

/-- A document of the `risks` collection, reduced to the fields the claims
consult. -/
structure RiskDoc where
  id : String
  project_id : String
  probability : String
  impact : String
  risk_score : Nat
  created_by : String
deriving DecidableEq, Repr

/-- `create_risk` at `POST /api/risks` (server.py lines 2903-2932):
parent-project existence first, then the score computation of
lines 2914-2920, then the insert with the computed `risk_score`. -/
def create_risk (db : Db) (risks : List RiskDoc) (risk_data : RiskInput)
    (current_user : User) (new_id : String) :
    Except Err (List RiskDoc × RiskDoc) :=
  match db.find_one_by_id risk_data.project_id with
  | none => Except.error (404, "Project not found")
  | some _ =>
    let prob_score := dictGet probability_score risk_data.probability 3
    let imp_score := dictGet impact_score risk_data.impact 3
    let calculated_risk_score := prob_score * imp_score
    let doc : RiskDoc :=
      ⟨new_id, risk_data.project_id, risk_data.probability, risk_data.impact,
       calculated_risk_score, current_user.id⟩
    Except.ok (risks ++ [doc], doc)

/-- The second `create_risk`, at `POST /api/projects/{project_id}/risks`
(server.py lines 2807-2845): parent existence on the path's `project_id`,
the body's `project_id` overwritten by the path's (line 2820), same score
computation (lines 2826-2828). -/
def create_risk_for_project (db : Db) (risks : List RiskDoc)
    (project_id : String) (risk_data : RiskInput) (current_user : User)
    (risk_id : String) : Except Err (List RiskDoc × RiskDoc) :=
  match db.find_one_by_id project_id with
  | none => Except.error (404, "Project not found")
  | some _ =>
    let risk_data := { risk_data with project_id := project_id }
    let risk_score :=
      dictGet probability_score risk_data.probability 3 *
      dictGet impact_score risk_data.impact 3
    let doc : RiskDoc :=
      ⟨risk_id, risk_data.project_id, risk_data.probability, risk_data.impact,
       risk_score, current_user.id⟩
    Except.ok (risks ++ [doc], doc)

/-- `update_risk` (server.py lines 2946-2978): risk lookup first (404),
then the score recomputation of lines 2958-2964, then the `$set` of every
`RiskBase` field plus the recomputed `risk_score`. Returns the updated
collection and the re-read updated document. -/
def update_risk (risks : List RiskDoc) (risk_id : String)
    (risk_update : RiskInput) : Except Err (List RiskDoc × RiskDoc) :=
  match risks.find? (fun r => r.id == risk_id) with
  | none => Except.error (404, "Risk not found")
  | some risk =>
    let calculated_risk_score :=
      dictGet probability_score risk_update.probability 3 *
      dictGet impact_score risk_update.impact 3
    let updated : RiskDoc :=
      { risk with
          project_id := risk_update.project_id,
          probability := risk_update.probability,
          impact := risk_update.impact,
          risk_score := calculated_risk_score }
    Except.ok (risks.map (fun r => if r.id == risk_id then updated else r),
               updated)

/-- `transition_project_phase` at
`PUT /api/projects/{project_id}/transition/{new_phase}`
(server.py lines 2994-3030): role gate (lines 3001-3003), project lookup
by `id`, then an unconditional `$set` of the status — no consultation of
any transition table. `new_phase` arrives path-validated against the
`ProjectStatus` enum. -/
def transition_project_phase (db : Db) (project_id : String)
    (new_phase : String) (current_user : User) : Except Err (Db × String) :=
  if current_user.role ∉ [UserRole.project_manager, UserRole.executive] then
    Except.error (403, "Not enough permissions")
  else
    match db.find_one_by_id project_id with
    | none => Except.error (404, "Project not found")
    | some _ =>
      let modified := db.projects.any (fun p => p.id == project_id)
      let db2 : Db :=
        ⟨db.projects.map (fun p =>
          if p.id == project_id then { p with status := some new_phase }
          else p)⟩
      if modified then Except.ok (db2, new_phase)
      else Except.error (404, "Project not found")

/-! Concrete fixtures used by the witnesses and counterexamples. -/

/-- A project in status `planning`, managed and created by user `u1`, with
no stakeholders. -/
def pDoc : ProjectDoc := ⟨"p1", "p1", some "planning", "u1", "u1", []⟩

/-- A one-project datastore. -/
def exDb : Db := ⟨[pDoc]⟩

/-- The manager of `pDoc`. -/
def pmUser : User := ⟨"u1", UserRole.project_manager⟩

/-- A `project_manager`-role user unrelated to `pDoc`: not its manager,
not a stakeholder, not its creator. -/
def pmUser2 : User := ⟨"u2", UserRole.project_manager⟩

/-- A `team_member`-role user unrelated to `pDoc`. -/
def tmUser : User := ⟨"u9", UserRole.team_member⟩

/-- A sub-document input referring to project `p1`. -/
def exInp : SubDocInput := ⟨"p1"⟩

/-! ## C1 — status update follows the workflow table -/

/-- The allowed-successor sets exactly as claim C1 and spec §4.2 spell
them, one clause per state. -/
def claimAllowed : String → List String
  | "initiation" => ["planning", "cancelled"]
  | "planning" => ["execution", "initiation", "cancelled"]
  | "execution" => ["monitoring", "planning", "cancelled"]
  | "monitoring" => ["closure", "execution", "cancelled"]
  | "closure" => ["completed", "monitoring", "cancelled"]
  | "completed" => []
  | "cancelled" => ["initiation"]
  | _ => []

/-- None of the seven statuses is the empty string (so none of them trips
the handler's falsy-status 400). -/
theorem mem_statuses_ne_empty : ∀ t ∈ projectStatuses, t ≠ "" := by decide

/-- On the seven statuses the code's `valid_transitions` lookup agrees
with the table as the claim spells it. -/
theorem allowedNext_eq_claimAllowed :
    ∀ s ∈ projectStatuses, allowedNext s = claimAllowed s := by decide

/-- C1: for every pair of statuses `s, t` of the workflow, the status
update on an existing project whose stored status is `s`, requesting `t`,
succeeds iff `t` is in the workflow table's allowed set for `s`; in
particular a project in `completed` admits no successful transition. -/
theorem C1_status_update_succeeds_iff_workflow_allows
    (db : Db) (project_id : String) (doc : ProjectDoc) (s t : String)
    (hs : s ∈ projectStatuses) (ht : t ∈ projectStatuses)
    (hfind : db.find_one_by_mId project_id = some doc)
    (hstatus : doc.status.getD "initiation" = s) :
    (isSuccess (update_project_status db project_id (some t)) = true ↔
      t ∈ claimAllowed s)
    ∧ (s = "completed" →
        isSuccess (update_project_status db project_id (some t)) = false) := by
  have htne : t ≠ "" := mem_statuses_ne_empty t ht
  have h := update_status_isSuccess db project_id doc t hfind htne
  rw [hstatus, allowedNext_eq_claimAllowed s hs] at h
  constructor
  · rw [h]; simp
  · intro hcomp
    subst hcomp
    rw [h, show claimAllowed "completed" = [] from rfl]
    simp

/-- C1 witness: on the concrete one-project store in `planning`, the
theorem applies with `s = planning`, `t = execution`. -/
theorem C1_witness :
    (isSuccess (update_project_status exDb "p1" (some "execution")) = true ↔
      "execution" ∈ claimAllowed "planning")
    ∧ (("planning" : String) = "completed" →
        isSuccess (update_project_status exDb "p1" (some "execution")) =
          false) :=
  C1_status_update_succeeds_iff_workflow_allows exDb "p1" pDoc "planning"
    "execution" (by decide) (by decide) (by decide) (by decide)

/-! ## C7 — the invalid-transition error reports status and allowed set -/

/-- C7: whenever the status update rejects a transition from stored status
`s` to target `t` as illegal, the returned error carries the current
status `s` and the full allowed set for `s` from the workflow table. -/
theorem C7_invalid_transition_error_reports_current_and_allowed
    (db : Db) (project_id : String) (doc : ProjectDoc) (s t : String)
    (hfind : db.find_one_by_mId project_id = some doc)
    (hstatus : doc.status.getD "initiation" = s)
    (htne : t ≠ "") (hillegal : t ∉ allowedNext s) :
    update_project_status db project_id (some t) =
      Except.error (400,
        "Invalid status transition from " ++ s ++ " to " ++ t ++
        ". Allowed: " ++ String.intercalate ", " (allowedNext s)) := by
  unfold update_project_status update_project_status_at
  rw [hfind]
  simp only [hstatus]
  simp [htne, hillegal]

/-- C7 witness: `planning → closure` is illegal and the error names
`planning` and its full allowed set. -/
theorem C7_witness :
    update_project_status exDb "p1" (some "closure") =
      Except.error (400,
        "Invalid status transition from " ++ "planning" ++ " to " ++
        "closure" ++ ". Allowed: " ++
        String.intercalate ", " (allowedNext "planning")) :=
  C7_invalid_transition_error_reports_current_and_allowed exDb "p1" pDoc
    "planning" "closure" (by decide) (by decide) (by decide) (by decide)

/-! ## C2 — project write authorization -/

/-- The permission check shared by `update_project` and `delete_project`
passes iff the caller's role is `project_manager` or `executive`, or the
caller is the project's manager. -/
theorem write_gate_iff (u : User) (project : ProjectDoc) :
    (¬ (u.role ∉ [UserRole.project_manager, UserRole.executive] ∧
        project.project_manager_id ≠ u.id)) ↔
    (u.role = UserRole.project_manager ∨ u.role = UserRole.executive ∨
     u.id = project.project_manager_id) := by
  constructor
  · intro h
    by_contra hd
    push_neg at hd
    exact h ⟨by simp [hd.1, hd.2.1], fun he => hd.2.2 he.symm⟩
  · intro hd hc
    rcases hc with ⟨hrole, hne⟩
    rcases hd with h | h | h
    · exact hrole (by simp [h])
    · exact hrole (by simp [h])
    · exact hne h.symm

/-- `update_project` on an existing project succeeds iff its permission
check passes. -/
theorem update_project_isSuccess (db : Db) (project_id : String) (u : User)
    (project : ProjectDoc)
    (hfind : db.find_one_by_id project_id = some project) :
    (isSuccess (update_project db project_id u) = true) ↔
      ¬ (u.role ∉ [UserRole.project_manager, UserRole.executive] ∧
         project.project_manager_id ≠ u.id) := by
  by_cases hc : u.role ∉ [UserRole.project_manager, UserRole.executive] ∧
      project.project_manager_id ≠ u.id
  · simp only [update_project, hfind]
    rw [if_pos hc]
    simp only [isSuccess]
    exact ⟨fun h => (nomatch h), fun hn => absurd hc hn⟩
  · simp only [update_project, hfind]
    rw [if_neg hc]
    simpa [isSuccess] using hc

/-- `delete_project` on an existing project succeeds iff its permission
check passes. -/
theorem delete_project_isSuccess (db : Db) (project_id : String) (u : User)
    (project : ProjectDoc)
    (hfind : db.find_one_by_id project_id = some project) :
    (isSuccess (delete_project db project_id u) = true) ↔
      ¬ (u.role ∉ [UserRole.project_manager, UserRole.executive] ∧
         project.project_manager_id ≠ u.id) := by
  by_cases hc : u.role ∉ [UserRole.project_manager, UserRole.executive] ∧
      project.project_manager_id ≠ u.id
  · simp only [delete_project, hfind]
    rw [if_pos hc]
    simp only [isSuccess]
    exact ⟨fun h => (nomatch h), fun hn => absurd hc hn⟩
  · simp only [delete_project, hfind]
    rw [if_neg hc]
    simpa [isSuccess] using hc

/-- C2 counterexample: a `project_manager`-role caller (`u2`) who is not
the project's `project_manager_id`, not a stakeholder and not the creator
is let through by `update_project`, so the claimed
"passes iff caller is `project_manager_id` or role is `executive`" is
false at this input. -/
theorem C2_counterexample :
    ¬ ((isSuccess (update_project exDb "p1" pmUser2) = true) ↔
       (pmUser2.id = pDoc.project_manager_id ∨
        pmUser2.role = UserRole.executive)) := by
  decide

/-- C2 amended: `update_project` and `delete_project` pass their
authorization check iff the caller's role is `project_manager` or
`executive`, or the caller is the project's `project_manager_id`. -/
theorem C2_amended_write_access (db : Db) (project_id : String) (u : User)
    (project : ProjectDoc)
    (hfind : db.find_one_by_id project_id = some project) :
    ((isSuccess (update_project db project_id u) = true) ↔
      (u.role = UserRole.project_manager ∨ u.role = UserRole.executive ∨
       u.id = project.project_manager_id))
    ∧ ((isSuccess (delete_project db project_id u) = true) ↔
      (u.role = UserRole.project_manager ∨ u.role = UserRole.executive ∨
       u.id = project.project_manager_id)) :=
  ⟨(update_project_isSuccess db project_id u project hfind).trans
      (write_gate_iff u project),
   (delete_project_isSuccess db project_id u project hfind).trans
      (write_gate_iff u project)⟩

/-- C2 witness: the amended statement applied to the concrete store and
the unrelated `project_manager`-role caller. -/
theorem C2_witness :
    ((isSuccess (update_project exDb "p1" pmUser2) = true) ↔
      (pmUser2.role = UserRole.project_manager ∨
       pmUser2.role = UserRole.executive ∨
       pmUser2.id = pDoc.project_manager_id))
    ∧ ((isSuccess (delete_project exDb "p1" pmUser2) = true) ↔
      (pmUser2.role = UserRole.project_manager ∨
       pmUser2.role = UserRole.executive ∨
       pmUser2.id = pDoc.project_manager_id)) :=
  C2_amended_write_access exDb "p1" pmUser2 pDoc (by decide)

/-! ## C3 — project read visibility -/

/-- C3 counterexample: a `team_member` not listed in `stakeholders` and
not `created_by` still gets the project from the single-project read
(`get_project` performs no visibility check), so the claimed
"returns iff stakeholder or creator" is false at this input. -/
theorem C3_counterexample :
    ¬ ((isSuccess (get_project exDb "p1" tmUser) = true) ↔
       (tmUser.id ∈ pDoc.stakeholders ∨ tmUser.id = pDoc.created_by)) := by
  decide

/-- C3 amended: the single-project read returns any existing project to
every authenticated caller, with no visibility check at all; the list
operation, for a `team_member` or `stakeholder` caller, returns exactly
the projects where the caller is the `project_manager_id`, is listed in
`stakeholders`, or is `created_by`. -/
theorem C3_amended_read_and_list :
    (∀ (db : Db) (project_id : String) (u : User) (doc : ProjectDoc),
        db.find_one_by_id project_id = some doc →
        get_project db project_id u = Except.ok doc)
    ∧ (∀ (db : Db) (u : User),
        u.role = UserRole.team_member ∨ u.role = UserRole.stakeholder →
        get_projects db none u = db.projects.filter (fun p =>
          p.project_manager_id == u.id || decide (u.id ∈ p.stakeholders) ||
          p.created_by == u.id)) := by
  constructor
  · intro db project_id u doc hfind
    unfold get_project
    rw [hfind]
  · intro db u hrole
    unfold get_projects project_matches_base_query
    rcases hrole with h | h <;> simp only [h] <;> simp

/-- C3 witness: the amended statement at the concrete store — the
unrelated `team_member` receives `pDoc` from the single read, and the
list operation returns nothing for them. -/
theorem C3_witness :
    get_project exDb "p1" tmUser = Except.ok pDoc ∧
    get_projects exDb none tmUser = [] := by
  refine ⟨C3_amended_read_and_list.1 exDb "p1" tmUser pDoc (by decide), ?_⟩
  rw [C3_amended_read_and_list.2 exDb tmUser (Or.inl rfl)]
  decide

/-! ## C4 / C8 — risk scoring -/

/-- The ordinal mapping exactly as claim C4 spells it: very_low=1, low=2,
medium=3, high=4, very_high=5. -/
def claimOrdinal : String → Nat
  | "very_low" => 1
  | "low" => 2
  | "medium" => 3
  | "high" => 4
  | "very_high" => 5
  | _ => 0

/-- On the five ordinal names the handlers' dict lookups agree with the
claim's mapping, whose values lie in 1..5. -/
theorem score_dict_eq_claimOrdinal :
    ∀ x ∈ riskOrdinals,
      dictGet probability_score x 3 = claimOrdinal x ∧
      dictGet impact_score x 3 = claimOrdinal x ∧
      1 ≤ claimOrdinal x ∧ claimOrdinal x ≤ 5 := by decide

/-- The score the handlers compute from ordinal-valued inputs is the
claim's product and lies in 1..25. -/
theorem calculated_score_spec (p i : String) (hp : p ∈ riskOrdinals)
    (hi : i ∈ riskOrdinals) :
    dictGet probability_score p 3 * dictGet impact_score i 3 =
      claimOrdinal p * claimOrdinal i ∧
    1 ≤ dictGet probability_score p 3 * dictGet impact_score i 3 ∧
    dictGet probability_score p 3 * dictGet impact_score i 3 ≤ 25 := by
  obtain ⟨hpe, -, hp1, hp5⟩ := score_dict_eq_claimOrdinal p hp
  obtain ⟨-, hie, hi1, hi5⟩ := score_dict_eq_claimOrdinal i hi
  refine ⟨by rw [hpe, hie], ?_, ?_⟩
  · rw [hpe, hie]
    simpa using Nat.mul_le_mul hp1 hi1
  · rw [hpe, hie]
    simpa using Nat.mul_le_mul hp5 hi5

/-- C4: on both risk-create handlers and on risk update, against an
existing parent project (resp. existing risk), the operation succeeds and
the stored `risk_score` is `claimOrdinal probability * claimOrdinal
impact`, hence in 1..25, recomputed from the submitted probability and
impact; a `risk_score` value in the request is never read, so changing it
does not change any handler's result. -/
theorem C4_risk_score_recomputed
    (db : Db) (risks : List RiskDoc) (risk_data : RiskInput) (u : User)
    (new_id : String) (project : ProjectDoc) (risk0 : RiskDoc)
    (risk_id : String)
    (hp : risk_data.probability ∈ riskOrdinals)
    (hi : risk_data.impact ∈ riskOrdinals)
    (hproj : db.find_one_by_id risk_data.project_id = some project)
    (hrisk : risks.find? (fun r => r.id == risk_id) = some risk0) :
    (∀ l doc, create_risk db risks risk_data u new_id = Except.ok (l, doc) →
       doc.risk_score =
         claimOrdinal risk_data.probability * claimOrdinal risk_data.impact ∧
       1 ≤ doc.risk_score ∧ doc.risk_score ≤ 25)
    ∧ (∀ l doc,
        create_risk_for_project db risks risk_data.project_id risk_data u
            new_id = Except.ok (l, doc) →
       doc.risk_score =
         claimOrdinal risk_data.probability * claimOrdinal risk_data.impact ∧
       1 ≤ doc.risk_score ∧ doc.risk_score ≤ 25)
    ∧ (∀ l doc, update_risk risks risk_id risk_data = Except.ok (l, doc) →
       doc.risk_score =
         claimOrdinal risk_data.probability * claimOrdinal risk_data.impact ∧
       1 ≤ doc.risk_score ∧ doc.risk_score ≤ 25)
    ∧ isSuccess (create_risk db risks risk_data u new_id) = true
    ∧ isSuccess (create_risk_for_project db risks risk_data.project_id
        risk_data u new_id) = true
    ∧ isSuccess (update_risk risks risk_id risk_data) = true
    ∧ (∀ n : Option Nat,
        create_risk db risks { risk_data with risk_score_in_request := n } u
            new_id =
          create_risk db risks risk_data u new_id ∧
        create_risk_for_project db risks risk_data.project_id
            { risk_data with risk_score_in_request := n } u new_id =
          create_risk_for_project db risks risk_data.project_id risk_data u
            new_id ∧
        update_risk risks risk_id
            { risk_data with risk_score_in_request := n } =
          update_risk risks risk_id risk_data) := by
  obtain ⟨heq, h1, h25⟩ :=
    calculated_score_spec risk_data.probability risk_data.impact hp hi
  refine ⟨?_, ?_, ?_, ?_, ?_, ?_, fun n => ⟨rfl, rfl, rfl⟩⟩
  · intro l doc hok
    simp only [create_risk, hproj, Except.ok.injEq, Prod.mk.injEq] at hok
    obtain ⟨-, hdoc⟩ := hok
    subst hdoc
    exact ⟨heq, h1, h25⟩
  · intro l doc hok
    simp only [create_risk_for_project, hproj, Except.ok.injEq,
      Prod.mk.injEq] at hok
    obtain ⟨-, hdoc⟩ := hok
    subst hdoc
    exact ⟨heq, h1, h25⟩
  · intro l doc hok
    simp only [update_risk, hrisk, Except.ok.injEq, Prod.mk.injEq] at hok
    obtain ⟨-, hdoc⟩ := hok
    subst hdoc
    exact ⟨heq, h1, h25⟩
  · simp [create_risk, hproj, isSuccess]
  · simp [create_risk_for_project, hproj, isSuccess]
  · simp [update_risk, hrisk, isSuccess]

/-- A risk request with probability `high`, impact `very_high`, and a
caller-supplied `risk_score` of 1 that must be ignored. -/
def exRiskIn : RiskInput := ⟨"p1", "high", "very_high", some 1⟩

/-- A pre-existing stored risk. -/
def exRisk0 : RiskDoc := ⟨"r1", "p1", "low", "low", 4, "u1"⟩

/-- The document `create_risk` stores for `exRiskIn`: score 20, not the
submitted 1. -/
def exRiskOut : RiskDoc := ⟨"r2", "p1", "high", "very_high", 20, "u1"⟩

/-- C4 witness: the theorem applied to the concrete store; the stored
document for probability `high` × impact `very_high` carries the claim's
product, in range. -/
theorem C4_witness :
    exRiskOut.risk_score =
      claimOrdinal "high" * claimOrdinal "very_high" ∧
    1 ≤ exRiskOut.risk_score ∧ exRiskOut.risk_score ≤ 25 :=
  (C4_risk_score_recomputed exDb [exRisk0] exRiskIn pmUser "r2" pDoc exRisk0
      "r1" (by decide) (by decide) (by decide) (by decide)).1
    ([exRisk0] ++ [exRiskOut]) exRiskOut (by decide)

/-- C8: an unrecognized probability or impact string scores as the
`medium` ordinal 3 — the dict lookups fall back to their default — and
the create handler still succeeds, storing 3 × 3 = 9 when both are
unrecognized. -/
theorem C8_unrecognized_ordinals_default_to_medium
    (db : Db) (risks : List RiskDoc) (risk_data : RiskInput) (u : User)
    (new_id : String) (project : ProjectDoc)
    (hp : risk_data.probability ∉ riskOrdinals)
    (hi : risk_data.impact ∉ riskOrdinals)
    (hproj : db.find_one_by_id risk_data.project_id = some project) :
    dictGet probability_score risk_data.probability 3 = 3
    ∧ dictGet impact_score risk_data.impact 3 = 3
    ∧ (∀ l doc,
        create_risk db risks risk_data u new_id = Except.ok (l, doc) →
        doc.risk_score = 9)
    ∧ isSuccess (create_risk db risks risk_data u new_id) = true := by
  have hp' : dictGet probability_score risk_data.probability 3 = 3 := by
    simp [riskOrdinals] at hp
    obtain ⟨h1, h2, h3, h4, h5⟩ := hp
    simp [dictGet, probability_score, List.find?,
      beq_eq_false_iff_ne.mpr (Ne.symm h1),
      beq_eq_false_iff_ne.mpr (Ne.symm h2),
      beq_eq_false_iff_ne.mpr (Ne.symm h3),
      beq_eq_false_iff_ne.mpr (Ne.symm h4),
      beq_eq_false_iff_ne.mpr (Ne.symm h5)]
  have hi' : dictGet impact_score risk_data.impact 3 = 3 := by
    simp [riskOrdinals] at hi
    obtain ⟨h1, h2, h3, h4, h5⟩ := hi
    simp [dictGet, impact_score, List.find?,
      beq_eq_false_iff_ne.mpr (Ne.symm h1),
      beq_eq_false_iff_ne.mpr (Ne.symm h2),
      beq_eq_false_iff_ne.mpr (Ne.symm h3),
      beq_eq_false_iff_ne.mpr (Ne.symm h4),
      beq_eq_false_iff_ne.mpr (Ne.symm h5)]
  refine ⟨hp', hi', ?_, ?_⟩
  · intro l doc hok
    simp only [create_risk, hproj, Except.ok.injEq, Prod.mk.injEq] at hok
    obtain ⟨-, hdoc⟩ := hok
    subst hdoc
    show dictGet probability_score risk_data.probability 3 *
        dictGet impact_score risk_data.impact 3 = 9
    rw [hp', hi']
  · simp [create_risk, hproj, isSuccess]

/-- The document stored for the unrecognized pair `extreme` × `unknown`:
risk score 9. -/
def exRisk9 : RiskDoc := ⟨"r2", "p1", "extreme", "unknown", 9, "u1"⟩

/-- C8 witness: the unrecognized strings `extreme` and `unknown` both
score 3 and the stored risk score is 9. -/
theorem C8_witness :
    dictGet probability_score "extreme" 3 = 3
    ∧ dictGet impact_score "unknown" 3 = 3
    ∧ exRisk9.risk_score = 9
    ∧ isSuccess
        (create_risk exDb [] ⟨"p1", "extreme", "unknown", none⟩ pmUser "r2") =
        true :=
  have h := C8_unrecognized_ordinals_default_to_medium exDb []
    ⟨"p1", "extreme", "unknown", none⟩ pmUser "r2" pDoc (by decide)
    (by decide) (by decide)
  ⟨h.1, h.2.1, h.2.2.1 [exRisk9] exRisk9 (by decide), h.2.2.2⟩

/-! ## C5 — role gate on charters, business cases, templates,
feasibility studies -/

/-- A stored charter used by the fixtures. -/
def exCharter : SubDoc := ⟨"c1", "p1", "u1"⟩

/-- A stored feasibility study used by the fixtures. -/
def exStudy : SubDoc := ⟨"s1", "p1", "u1"⟩

/-- C5: every create/update of a charter, business case, template or
feasibility study rejects a `team_member` or `stakeholder` caller with
the 403 permission error regardless of the caller's relationship to the
parent project, and never raises that permission error for a
`project_manager` or `executive` caller. The two update handlers look
their document up before the gate, so the document is assumed to exist. -/
theorem C5_sub_document_role_gate
    (db : Db)
    (project_charters business_cases feasibility_studies : List SubDoc)
    (templates : List TemplateDoc) (inp : SubDocInput) (u : User)
    (new_id charter_id study_id : String) (charter0 study0 : SubDoc)
    (hc : project_charters.find? (fun c => c.id == charter_id) = some charter0)
    (hstudy :
      feasibility_studies.find? (fun s0 => s0.id == study_id) = some study0) :
    ((u.role = UserRole.team_member ∨ u.role = UserRole.stakeholder) →
      create_project_charter db project_charters inp u new_id =
        Except.error (403, "Not enough permissions") ∧
      update_project_charter project_charters charter_id inp u =
        Except.error (403, "Not enough permissions") ∧
      create_business_case db business_cases inp u new_id =
        Except.error (403, "Not enough permissions") ∧
      create_template templates u new_id =
        Except.error (403, "Not enough permissions") ∧
      create_feasibility_study db feasibility_studies inp u new_id =
        Except.error (403, "Not enough permissions") ∧
      update_feasibility_study feasibility_studies study_id inp u =
        Except.error (403, "Not enough permissions"))
    ∧ ((u.role = UserRole.project_manager ∨ u.role = UserRole.executive) →
      create_project_charter db project_charters inp u new_id ≠
        Except.error (403, "Not enough permissions") ∧
      update_project_charter project_charters charter_id inp u ≠
        Except.error (403, "Not enough permissions") ∧
      create_business_case db business_cases inp u new_id ≠
        Except.error (403, "Not enough permissions") ∧
      create_template templates u new_id ≠
        Except.error (403, "Not enough permissions") ∧
      create_feasibility_study db feasibility_studies inp u new_id ≠
        Except.error (403, "Not enough permissions") ∧
      update_feasibility_study feasibility_studies study_id inp u ≠
        Except.error (403, "Not enough permissions")) := by
  constructor
  · intro hrole
    have hnotin : u.role ∉ [UserRole.project_manager, UserRole.executive] := by
      rcases hrole with h | h <;> simp [h]
    refine ⟨?_, ?_, ?_, ?_, ?_, ?_⟩
    · simp only [create_project_charter]
      rw [if_pos hnotin]
    · simp only [update_project_charter, hc]
      rw [if_pos hnotin]
    · simp only [create_business_case]
      rw [if_pos hnotin]
    · simp only [create_template]
      rw [if_pos hnotin]
    · simp only [create_feasibility_study]
      rw [if_pos hnotin]
    · simp only [update_feasibility_study, hstudy]
      rw [if_pos hnotin]
  · intro hrole
    have hin : ¬ (u.role ∉ [UserRole.project_manager, UserRole.executive]) := by
      rcases hrole with h | h <;> simp [h]
    refine ⟨?_, ?_, ?_, ?_, ?_, ?_⟩
    · simp only [create_project_charter]
      rw [if_neg hin]
      cases hfind : db.find_one_by_id inp.project_id <;> simp
    · simp only [update_project_charter, hc]
      rw [if_neg hin]
      simp
    · simp only [create_business_case]
      rw [if_neg hin]
      cases hfind : db.find_one_by_id inp.project_id <;> simp
    · simp only [create_template]
      rw [if_neg hin]
      simp
    · simp only [create_feasibility_study]
      rw [if_neg hin]
      cases hfind : db.find_one_by_id inp.project_id <;> simp
    · simp only [update_feasibility_study, hstudy]
      rw [if_neg hin]
      simp

/-- C5 witness: on the concrete store, a `team_member` is rejected from
charter creation with the permission error, and a `project_manager` never
sees it from template creation. -/
theorem C5_witness :
    create_project_charter exDb [exCharter] exInp tmUser "c2" =
      Except.error (403, "Not enough permissions") ∧
    create_template [] pmUser "t1" ≠
      Except.error (403, "Not enough permissions") :=
  ⟨((C5_sub_document_role_gate exDb [exCharter] [] [exStudy] [] exInp tmUser
      "c2" "c1" "s1" exCharter exStudy (by decide) (by decide)).1
      (Or.inl rfl)).1,
   ((C5_sub_document_role_gate exDb [exCharter] [] [exStudy] [] exInp pmUser
      "t1" "c1" "s1" exCharter exStudy (by decide) (by decide)).2
      (Or.inl rfl)).2.2.2.1⟩

/-! ## C6 — order of parent-existence and role checks -/

/-- The datastore after request A (`planning → execution`) has committed. -/
def raceDb1 : Db := ⟨[⟨"p1", "p1", some "execution", "u1", "u1", []⟩]⟩

/-- The datastore after request B (`planning → initiation`, checked
against the stale `planning` snapshot) has also committed. -/
def raceDb2 : Db := ⟨[⟨"p1", "p1", some "initiation", "u1", "u1", []⟩]⟩

/-- C9 (code bug): the status write of `update_project_status` is
filtered only by `_id` — never by the status its legality check was
computed against — so two interleaved transition requests that both read
the same `planning` snapshot both succeed: A writes `execution`, then B,
whose check used the stale snapshot, silently overwrites it with
`initiation`, a transition that is illegal from the actual current status
`execution`; no Conflict-class error exists in the handler. -/
theorem C9_concurrent_transitions_both_succeed :
    update_project_status_at exDb exDb "p1" (some "execution") =
      Except.ok (raceDb1, "execution") ∧
    update_project_status_at exDb raceDb1 "p1" (some "initiation") =
      Except.ok (raceDb2, "initiation") ∧
    "initiation" ∉ allowedNext "execution" := by
  decide

/-! ## C10 — the phase-transition endpoint bypasses the workflow -/

/-- C10: `transition_project_phase`, for a `project_manager` or
`executive` caller and an existing project in any current status, writes
the requested status unconditionally — the result is the plain `$set` of
the new phase, with no workflow table consulted, for every target phase. -/
theorem C10_transition_phase_unconditional
    (db : Db) (project_id new_phase : String) (u : User) (doc : ProjectDoc)
    (hrole : u.role = UserRole.project_manager ∨ u.role = UserRole.executive)
    (hphase : new_phase ∈ projectStatuses)
    (hfind : db.find_one_by_id project_id = some doc) :
    transition_project_phase db project_id new_phase u =
      Except.ok
        (⟨db.projects.map (fun p =>
            if p.id == project_id then { p with status := some new_phase }
            else p)⟩,
         new_phase) := by
  have hin : ¬ (u.role ∉ [UserRole.project_manager, UserRole.executive]) := by
    rcases hrole with h | h <;> simp [h]
  have hany : db.projects.any (fun p => p.id == project_id) = true :=
    any_of_find?_some (by simpa [Db.find_one_by_id] using hfind)
  simp only [transition_project_phase]
  rw [if_neg hin, hfind]
  simp [hany]

/-- A project already in the terminal `completed` status. -/
def doneDoc : ProjectDoc := ⟨"p2", "p2", some "completed", "u1", "u1", []⟩

/-- A datastore holding only the completed project. -/
def doneDb : Db := ⟨[doneDoc]⟩

/-- C10 witness: the endpoint moves a `completed` project straight to
`initiation`. -/
theorem C10_witness :
    transition_project_phase doneDb "p2" "initiation" pmUser =
      Except.ok
        (⟨doneDb.projects.map (fun p =>
            if p.id == "p2" then { p with status := some "initiation" }
            else p)⟩,
         "initiation") :=
  C10_transition_phase_unconditional doneDb "p2" "initiation" pmUser doneDoc
    (Or.inl rfl) (by decide) (by decide)

end PMO
